import Mathlib

/-!
A shallow embedding of the GridWorks Ear daemon (`src/gear/ear.py`): the
store-or-spill decision in `Ear.on_message`, the S3 write classification in
`Ear.put_in_s3`, the local spill cache (`Ear.store_locally`,
`Ear.try_to_empty_cache`), and the minute/hour/day maintenance cadences
(`Ear.next_min_cron_s` .. `Ear.main`).

External effects are made explicit: the outcome of each remote S3 put is an
`S3PutOutcome` parameter (the code's `s3_object.put` call can raise one of
three exception classes or return a response dict), the remote bucket and the
local spill directory are modelled as association lists inside `EarState`,
and wall-clock reads (`time.time()`) are `Nat` parameters.
-/

namespace GearEar

/-- The `UniverseType` enum from gridworks, as used by `ear.py`
(`Dev`, `Hybrid`; other members are irrelevant to the ear's branches). -/
inductive UniverseType where
  | Dev
  | Hybrid
  | Shadow
deriving DecidableEq, Repr

/-- The `MessageCategory` enum members that `Ear.on_message` branches on. -/
inductive MessageCategory where
  | RabbitJsonDirect
  | RabbitJsonBroadcast
  | RabbitGwSerial
  | MqttJsonBroadcast
deriving DecidableEq, Repr

/-- The `ResponseMetadata` sub-dict of a boto3 put response: the
`HTTPStatusCode` key may be absent (line 266 of `ear.py` checks for it). -/
structure S3ResponseMetadata where
  httpStatusCode : Option Nat
deriving DecidableEq, Repr

/-- A boto3 put response dict: the `ResponseMetadata` key may be absent
(line 262 of `ear.py` checks for it). -/
structure S3PutResult where
  responseMetadata : Option S3ResponseMetadata
deriving DecidableEq, Repr

/-- The possible outcomes of the `s3_object.put(Body=payload)` call in
`Ear.put_in_s3` (lines 252-259): one of the three caught exception classes,
or a returned response dict. -/
inductive S3PutOutcome where
  | clientError (msg : String)
  | endpointConnectionError (msg : String)
  | otherException (msg : String)
  | result (r : S3PutResult)
deriving DecidableEq, Repr

/-- The classification logic of `Ear.put_in_s3` (lines 249-274): starting
from `s3_put_worked = False`, the flag becomes `True` exactly when the put
returned a response dict holding a `ResponseMetadata` dict holding an
`HTTPStatusCode` equal to 200. Every exception path and every malformed or
non-200 response leaves it `False`. -/
def s3_put_worked : S3PutOutcome → Bool
  | S3PutOutcome.clientError _ => false
  | S3PutOutcome.endpointConnectionError _ => false
  | S3PutOutcome.otherException _ => false
  | S3PutOutcome.result r =>
    match r.responseMetadata with
    | none => false
    | some md =>
      match md.httpStatusCode with
      | none => false
      | some code => code == 200

/-- The in-memory and on-disk state of one `Ear` instance that the claims
are about. `remote` models the contents of the S3 bucket (path, payload
pairs appended by successful puts); `cache` models the files of the local
spill directory `output/need_to_put/...` as (file name, payload) pairs;
`s3_put_attempts` counts calls of `put_in_s3` (instrumentation only);
the three `*_cron_file_mtime` fields model the `os.utime`d marker files. -/
structure EarState where
  world_instance_alias : String
  my_fqdn : String
  universe_type : UniverseType
  s3_put_works : Bool
  s3_time_based_subfolder_name : String
  cache : List (String × String)
  remote : List (String × String)
  s3_put_attempts : Nat
  messages_heard_this_hour : Nat
  last_min_cron_s : Nat
  last_hour_cron_s : Nat
  last_day_cron_s : Nat
  minute_cron_file_mtime : Nat
  hour_cron_file_mtime : Nat
  day_cron_file_mtime : Nat
  alerts_sent : Nat
deriving DecidableEq, Repr

/-- `Ear.output_folder_root` (lines 216-221): the cached
`_s3_time_based_subfolder_name` is interpolated, not recomputed. -/
def output_folder_root (st : EarState) : String :=
  st.world_instance_alias ++ "/eventstore/" ++ st.s3_time_based_subfolder_name

/-!
Civil date from a day count since 1970-01-01, the standard civil-from-days
algorithm, restricted to non-negative day counts. Models what
`pendulum.from_timestamp(t).strftime("%Y%m%d")` computes for `t ≥ 0`.
-/

/-- Completed 400-year eras before the civil day `days` since the epoch. -/
def civil_era (days : Nat) : Nat := (days + 719468) / 146097

/-- Day of the 400-year era, in `[0, 146096]`. -/
def civil_doe (days : Nat) : Nat := (days + 719468) % 146097

/-- Year of the era, in `[0, 399]`. -/
def civil_yoe (days : Nat) : Nat :=
  (civil_doe days - civil_doe days / 1460 + civil_doe days / 36524
    - civil_doe days / 146096) / 365

/-- Day of the March-based year, in `[0, 365]`. -/
def civil_doy (days : Nat) : Nat :=
  civil_doe days
    - (365 * civil_yoe days + civil_yoe days / 4 - civil_yoe days / 100)

/-- March-based month index, in `[0, 11]`. -/
def civil_mp (days : Nat) : Nat := (5 * civil_doy days + 2) / 153

/-- Civil day of the month, in `[1, 31]`. -/
def civil_day (days : Nat) : Nat :=
  civil_doy days - (153 * civil_mp days + 2) / 5 + 1

/-- Civil month, in `[1, 12]`. -/
def civil_month (days : Nat) : Nat :=
  if civil_mp days < 10 then civil_mp days + 3 else civil_mp days - 9

/-- Civil year (January-based). -/
def civil_year (days : Nat) : Nat :=
  if civil_month days ≤ 2 then civil_yoe days + civil_era days * 400 + 1
  else civil_yoe days + civil_era days * 400

/-- Zero-pad a month or day number to two digits. -/
def pad2 (n : Nat) : String :=
  if n < 10 then "0" ++ toString n else toString n

/-- `Ear.time_based_subfolder_name_from_unix_s` (lines 223-224):
`pendulum.from_timestamp(time_unix_s).strftime("%Y%m%d")`, i.e. the UTC
calendar date of the timestamp as an 8-character `YYYYMMDD` string. -/
def time_based_subfolder_name_from_unix_s (time_unix_s : Nat) : String :=
  toString (civil_year (time_unix_s / 86400))
    ++ pad2 (civil_month (time_unix_s / 86400))
    ++ pad2 (civil_day (time_unix_s / 86400))

/-- `Ear.possibly_update_s3_folder` (lines 206-214): recompute the
time-based subfolder from the current time, cache it, and report whether it
changed. -/
def possibly_update_s3_folder (st : EarState) (now : Nat) : Bool × EarState :=
  let old_name := st.s3_time_based_subfolder_name
  let new_name := time_based_subfolder_name_from_unix_s now
  (old_name != new_name,
    { st with s3_time_based_subfolder_name := new_name })

/-- `Ear.put_in_s3` (lines 233-283). The path is built from the cached
`output_folder_root`; the put outcome is classified by `s3_put_worked`; on
success the blob is in the bucket (modelled by appending to `remote`) and
`self.s3_put_works` is set `True`, returning `True`; on any failure
`self.s3_put_works` is set `False` and `False` is returned (the function
never raises: all exception paths are caught, which is why the embedding is
a total function of the outcome). `s3_put_attempts` instruments the call
count. -/
def put_in_s3 (st : EarState) (file_name : String) (payload : String)
    (o : S3PutOutcome) : Bool × EarState :=
  let path_name := output_folder_root st ++ "/" ++ file_name
  let worked := s3_put_worked o
  (worked,
    { st with
      s3_put_attempts := st.s3_put_attempts + 1
      s3_put_works := worked
      remote := if worked then st.remote ++ [(path_name, payload)] else st.remote })

/-- The characters of a world instance alias before the first `"__"`,
modelling Python's `world_instance_alias.split("__")[0]`. -/
def chars_before_double_underscore : List Char → List Char
  | [] => []
  | '_' :: '_' :: _ => []
  | c :: rest => c :: chars_before_double_underscore rest

/-- `self.settings.world_instance_alias.split("__")[0]` (line 230). -/
def world_alias_of (world_instance_alias : String) : String :=
  String.mk (chars_before_double_underscore world_instance_alias.data)

/-- The heartbeat payload built in `Ear.update_s3_put_works` (lines
227-229), a JSON-ish string naming the ear's fqdn and the time in ms. -/
def heartbeat_payload (st : EarState) (now : Nat) : String :=
  "\"EarDns\": \"" ++ st.my_fqdn ++ "\",\"UnixTimeMs\": " ++ toString (now * 1000)

/-- `Ear.update_s3_put_works` (lines 226-231): write a synthetic heartbeat
blob via `put_in_s3` and discard the returned boolean (the flag side effect
inside `put_in_s3` is the point of the call). -/
def update_s3_put_works (st : EarState) (now : Nat) (o : S3PutOutcome) : EarState :=
  let world_alias := world_alias_of st.world_instance_alias
  (put_in_s3 st
    (world_alias ++ "-heartbeat.a-0-" ++ st.my_fqdn ++ ".txt")
    (heartbeat_payload st now) o).2

/-- Boolean suffix test on strings, modelling Python's `str.endswith`. -/
def str_ends_with (s pat : String) : Bool :=
  pat.data.isSuffixOf s.data

/-- The Dev-mode flush loop of `Ear.store_locally` (lines 298-304): every
file of the spill directory ending in `.json` or `.txt` is removed. -/
def flush_dev_records (cache : List (String × String)) : List (String × String) :=
  cache.filter
    (fun r => !(str_ends_with r.1 ".json") && !(str_ends_with r.1 ".txt"))

/-- Writing a file into the spill directory (lines 306-307): `open(..., "wb")`
replaces any existing file of the same name. -/
def cache_write (cache : List (String × String)) (file_name payload : String) :
    List (String × String) :=
  cache.filter (fun r => r.1 != file_name) ++ [(file_name, payload)]

/-- `Ear.store_locally` (lines 289-308): in a Dev universe, first flush all
`.json`/`.txt` records from the spill directory, then write the payload
under `file_name`. -/
def store_locally (st : EarState) (file_name : String) (payload : String) : EarState :=
  let cache :=
    if st.universe_type = UniverseType.Dev then flush_dev_records st.cache else st.cache
  { st with cache := cache_write cache file_name payload }

/-- The loop body sequence of `Ear.try_to_empty_cache` (lines 315-323) over
the captured `os.listdir` listing: for each listed record, put its payload
in S3 (the put outcome for a given file name is the `oracle`'s answer) and
delete the record from the directory iff the put returned `True`. -/
def drain_files (oracle : String → S3PutOutcome) :
    List (String × String) → EarState → EarState
  | [], st => st
  | (file_name, payload) :: rest, st =>
    let res := put_in_s3 st file_name payload (oracle file_name)
    let st1 :=
      if res.1 then
        { res.2 with cache := res.2.cache.filter (fun r => r.1 != file_name) }
      else res.2
    drain_files oracle rest st1

/-- `Ear.try_to_empty_cache` (lines 310-323): drain the spill directory,
iterating over the listing captured at entry. -/
def try_to_empty_cache (st : EarState) (oracle : String → S3PutOutcome) : EarState :=
  drain_files oracle st.cache st

/-- A drain pass aborted after its first `k` records: models a crash or a
filesystem fault (e.g. `open` raising) part-way through
`Ear.try_to_empty_cache`, after which the loop body no longer runs. -/
def try_to_empty_cache_upto (st : EarState) (oracle : String → S3PutOutcome)
    (k : Nat) : EarState :=
  drain_files oracle (st.cache.take k) st

/-- An inbound AMQP delivery as `Ear.on_message` sees it: each of the three
decode steps (`get_payload_type_name`, `from_alias_from_routing_key`,
`message_category_from_routing_key`) either yields a value or raises
`SchemaError`, modelled by `Option`. `body` is the raw message bytes. -/
structure InboundMessage where
  type_name : Option String
  from_alias : Option String
  msg_category : Option MessageCategory
  body : String
deriving DecidableEq, Repr

/-- The blob file name built in `Ear.on_message` (lines 183-187):
`{from_alias}-{type_name}-{unix_ms}-{fqdn}.txt` for `RabbitGwSerial`
messages, `.json` otherwise. -/
def message_file_name (from_alias type_name : String) (cat : MessageCategory)
    (now_ms : Nat) (fqdn : String) : String :=
  let kafka_topic := from_alias ++ "-" ++ type_name
  let ext := if cat = MessageCategory.RabbitGwSerial then ".txt" else ".json"
  kafka_topic ++ "-" ++ toString now_ms ++ "-" ++ fqdn ++ ext

/-- `Ear.on_message` (lines 151-198). A `SchemaError` from the payload-type
decode or the from-alias decode drops the message before the hourly counter
is incremented; the counter is incremented, then a `SchemaError` from the
category decode drops the message; otherwise the file name is built and the
message is put in S3 only when the cached `s3_put_works` flag is `True`
(`success_putting_this_one` is `False` without an attempt otherwise), and
stored locally iff `success_putting_this_one` is `False`. -/
def on_message (st : EarState) (m : InboundMessage) (now_ms : Nat)
    (o : S3PutOutcome) : EarState :=
  match m.type_name with
  | none => st
  | some type_name =>
    match m.from_alias with
    | none => st
    | some from_alias =>
      let st := { st with messages_heard_this_hour := st.messages_heard_this_hour + 1 }
      match m.msg_category with
      | none => st
      | some cat =>
        let file_name := message_file_name from_alias type_name cat now_ms st.my_fqdn
        let res :=
          if st.s3_put_works then put_in_s3 st file_name m.body o else (false, st)
        if res.1 then res.2 else store_locally res.2 file_name m.body

/-- `Ear.next_min_cron_s` (lines 329-332). -/
def next_min_cron_s (st : EarState) : Nat :=
  st.last_min_cron_s - st.last_min_cron_s % 60 + 60

/-- `Ear.next_hour_cron_s` (lines 334-337). -/
def next_hour_cron_s (st : EarState) : Nat :=
  st.last_hour_cron_s - st.last_hour_cron_s % 3600 + 3600

/-- `Ear.next_day_cron_s` (lines 339-342). -/
def next_day_cron_s (st : EarState) : Nat :=
  st.last_day_cron_s - st.last_day_cron_s % 86400 + 86400

/-- `Ear.time_for_min_cron` (lines 344-347). -/
def time_for_min_cron (st : EarState) (now : Nat) : Bool :=
  decide (now > next_min_cron_s st)

/-- `Ear.time_for_hour_cron` (lines 349-352). -/
def time_for_hour_cron (st : EarState) (now : Nat) : Bool :=
  decide (now > next_hour_cron_s st)

/-- `Ear.time_for_day_cron` (lines 354-357). -/
def time_for_day_cron (st : EarState) (now : Nat) : Bool :=
  decide (now > next_day_cron_s st)

/-- `Ear.cron_every_min_success` (lines 359-361). -/
def cron_every_min_success (st : EarState) (now : Nat) : EarState :=
  { st with last_min_cron_s := now, minute_cron_file_mtime := now }

/-- `Ear.cron_every_hour_success` (lines 363-366). -/
def cron_every_hour_success (st : EarState) (now : Nat) : EarState :=
  { st with last_hour_cron_s := now, hour_cron_file_mtime := now }

/-- `Ear.cron_every_day_success` (lines 368-371). -/
def cron_every_day_success (st : EarState) (now : Nat) : EarState :=
  { st with last_day_cron_s := now, day_cron_file_mtime := now }

/-- `Ear.cron_every_min` (lines 373-375): heartbeat probe, then advance the
minute cadence. -/
def cron_every_min (st : EarState) (now : Nat) (hb : S3PutOutcome) : EarState :=
  cron_every_min_success (update_s3_put_works st now hb) now

/-- `Ear.cron_every_hour` (lines 377-390): maybe send the silence warning
(zero messages heard and the hour marker file older than 1800 s), reset the
hourly counter, and only when the cached `s3_put_works` flag is `True`
drain the spill cache and advance the hour cadence. -/
def cron_every_hour (st : EarState) (now : Nat)
    (oracle : String → S3PutOutcome) : EarState :=
  let st1 :=
    if st.messages_heard_this_hour = 0 then
      if now - st.hour_cron_file_mtime > 1800 then
        { st with alerts_sent := st.alerts_sent + 1 }
      else st
    else st
  let st2 := { st1 with messages_heard_this_hour := 0 }
  if st2.s3_put_works then
    cron_every_hour_success (try_to_empty_cache st2 oracle) now
  else st2

/-- `Ear.cron_every_day` (lines 392-394): rotation check, then advance the
day cadence. -/
def cron_every_day (st : EarState) (now : Nat) : EarState :=
  cron_every_day_success (possibly_update_s3_folder st now).2 now

/-- One wake-up of the `Ear.main` loop (lines 396-405): the three cadence
checks in fixed minute, hour, day order, all against the same wall-clock
read. `hb` is the S3 outcome for the minute action's heartbeat put, and
`oracle` gives the outcome of each drain put by file name. -/
def main_loop_tick (st : EarState) (now : Nat) (hb : S3PutOutcome)
    (oracle : String → S3PutOutcome) : EarState :=
  let stA := if time_for_min_cron st now then cron_every_min st now hb else st
  let stB := if time_for_hour_cron stA now then cron_every_hour stA now oracle else stA
  if time_for_day_cron stB now then cron_every_day stB now else stB

/-! Concrete fixtures used by witnesses and counterexamples. -/

/-- A put outcome with a well-formed 200 response: the successful case. -/
def okOutcome : S3PutOutcome := S3PutOutcome.result ⟨some ⟨some 200⟩⟩

/-- A put outcome where the endpoint connection failed. -/
def downOutcome : S3PutOutcome := S3PutOutcome.endpointConnectionError "conn refused"

/-- An S3 that rejects every drain put. -/
def oracleDown : String → S3PutOutcome := fun _ => downOutcome

/-- A freshly initialised ear state in a Hybrid world, with the cached
health flag `False` (as `Ear.__init__` sets it), empty cache and bucket,
and all cadence markers at epoch. -/
def baseState : EarState where
  world_instance_alias := "hw1__1"
  my_fqdn := "ear.example.com"
  universe_type := UniverseType.Hybrid
  s3_put_works := false
  s3_time_based_subfolder_name := "19700101"
  cache := []
  remote := []
  s3_put_attempts := 0
  messages_heard_this_hour := 0
  last_min_cron_s := 0
  last_hour_cron_s := 0
  last_day_cron_s := 0
  minute_cron_file_mtime := 0
  hour_cron_file_mtime := 0
  day_cron_file_mtime := 0
  alerts_sent := 0

/-- A well-formed inbound message: all three decode steps succeed. -/
def msgOk : InboundMessage where
  type_name := some "gt.sh.status.110"
  from_alias := some "atn1"
  msg_category := some MessageCategory.RabbitJsonDirect
  body := "some-body"

/-- An inbound message whose payload-type decode raises `SchemaError`. -/
def msgNoType : InboundMessage where
  type_name := none
  from_alias := some "atn1"
  msg_category := some MessageCategory.RabbitJsonDirect
  body := "junk"

/-- `baseState` with the cached health flag `True`. -/
def stFlagTrue : EarState := { baseState with s3_put_works := true }

/-- A Dev-mode state whose spill cache already holds three stale records. -/
def stDev3 : EarState :=
  { baseState with
    universe_type := UniverseType.Dev
    cache := [("s1.json", "a"), ("s2.json", "b"), ("s3.txt", "c")] }

/-! Frame lemmas: which `EarState` fields each operation leaves unchanged. -/

theorem drain_files_keeps (oracle : String → S3PutOutcome)
    (l : List (String × String)) (st : EarState) :
    (drain_files oracle l st).last_min_cron_s = st.last_min_cron_s
    ∧ (drain_files oracle l st).last_hour_cron_s = st.last_hour_cron_s
    ∧ (drain_files oracle l st).last_day_cron_s = st.last_day_cron_s
    ∧ (drain_files oracle l st).hour_cron_file_mtime = st.hour_cron_file_mtime
    ∧ (drain_files oracle l st).minute_cron_file_mtime = st.minute_cron_file_mtime
    ∧ (drain_files oracle l st).day_cron_file_mtime = st.day_cron_file_mtime
    ∧ (drain_files oracle l st).messages_heard_this_hour = st.messages_heard_this_hour
    ∧ (drain_files oracle l st).alerts_sent = st.alerts_sent
    ∧ (drain_files oracle l st).s3_time_based_subfolder_name
        = st.s3_time_based_subfolder_name := by
  induction l generalizing st with
  | nil => exact ⟨rfl, rfl, rfl, rfl, rfl, rfl, rfl, rfl, rfl⟩
  | cons hd tl ih =>
    obtain ⟨n, p⟩ := hd
    simp only [drain_files]
    split
    · exact ih _
    · exact ih _

@[simp] theorem drain_files_last_min (oracle : String → S3PutOutcome)
    (l : List (String × String)) (st : EarState) :
    (drain_files oracle l st).last_min_cron_s = st.last_min_cron_s :=
  (drain_files_keeps oracle l st).1

@[simp] theorem drain_files_last_hour (oracle : String → S3PutOutcome)
    (l : List (String × String)) (st : EarState) :
    (drain_files oracle l st).last_hour_cron_s = st.last_hour_cron_s :=
  (drain_files_keeps oracle l st).2.1

@[simp] theorem drain_files_last_day (oracle : String → S3PutOutcome)
    (l : List (String × String)) (st : EarState) :
    (drain_files oracle l st).last_day_cron_s = st.last_day_cron_s :=
  (drain_files_keeps oracle l st).2.2.1

@[simp] theorem cron_every_min_last_min (st : EarState) (now : Nat) (hb : S3PutOutcome) :
    (cron_every_min st now hb).last_min_cron_s = now := rfl

@[simp] theorem cron_every_min_last_hour (st : EarState) (now : Nat) (hb : S3PutOutcome) :
    (cron_every_min st now hb).last_hour_cron_s = st.last_hour_cron_s := rfl

@[simp] theorem cron_every_min_last_day (st : EarState) (now : Nat) (hb : S3PutOutcome) :
    (cron_every_min st now hb).last_day_cron_s = st.last_day_cron_s := rfl

@[simp] theorem cron_every_min_flag (st : EarState) (now : Nat) (hb : S3PutOutcome) :
    (cron_every_min st now hb).s3_put_works = s3_put_worked hb := rfl

theorem possibly_update_s3_folder_snd (st : EarState) (now : Nat) :
    (possibly_update_s3_folder st now).2
      = { st with s3_time_based_subfolder_name :=
            time_based_subfolder_name_from_unix_s now } := rfl

theorem cron_every_day_eq (st : EarState) (now : Nat) :
    cron_every_day st now
      = { st with
          s3_time_based_subfolder_name := time_based_subfolder_name_from_unix_s now
          last_day_cron_s := now
          day_cron_file_mtime := now } := by
  unfold cron_every_day
  rw [possibly_update_s3_folder_snd]
  generalize time_based_subfolder_name_from_unix_s now = s
  rfl

@[simp] theorem cron_every_day_last_min (st : EarState) (now : Nat) :
    (cron_every_day st now).last_min_cron_s = st.last_min_cron_s := by
  rw [cron_every_day_eq]

@[simp] theorem cron_every_day_last_hour (st : EarState) (now : Nat) :
    (cron_every_day st now).last_hour_cron_s = st.last_hour_cron_s := by
  rw [cron_every_day_eq]

@[simp] theorem cron_every_day_last_day (st : EarState) (now : Nat) :
    (cron_every_day st now).last_day_cron_s = now := by
  rw [cron_every_day_eq]

@[simp] theorem cron_every_day_flag (st : EarState) (now : Nat) :
    (cron_every_day st now).s3_put_works = st.s3_put_works := by
  rw [cron_every_day_eq]

theorem cron_every_hour_fields (st : EarState) (now : Nat)
    (oracle : String → S3PutOutcome) :
    (cron_every_hour st now oracle).last_hour_cron_s
      = (if st.s3_put_works then now else st.last_hour_cron_s)
    ∧ (cron_every_hour st now oracle).last_min_cron_s = st.last_min_cron_s
    ∧ (cron_every_hour st now oracle).last_day_cron_s = st.last_day_cron_s
    ∧ (st.s3_put_works = false →
        (cron_every_hour st now oracle).s3_put_works = false) := by
  by_cases h0 : st.messages_heard_this_hour = 0 <;>
    by_cases h1 : now - st.hour_cron_file_mtime > 1800 <;>
      by_cases hf : st.s3_put_works <;>
        simp [cron_every_hour, h0, h1, hf, cron_every_hour_success,
          try_to_empty_cache]

@[simp] theorem cron_every_hour_last_min (st : EarState) (now : Nat)
    (oracle : String → S3PutOutcome) :
    (cron_every_hour st now oracle).last_min_cron_s = st.last_min_cron_s :=
  (cron_every_hour_fields st now oracle).2.1

@[simp] theorem cron_every_hour_last_day (st : EarState) (now : Nat)
    (oracle : String → S3PutOutcome) :
    (cron_every_hour st now oracle).last_day_cron_s = st.last_day_cron_s :=
  (cron_every_hour_fields st now oracle).2.2.1

theorem cron_every_hour_last_hour (st : EarState) (now : Nat)
    (oracle : String → S3PutOutcome) :
    (cron_every_hour st now oracle).last_hour_cron_s
      = (if st.s3_put_works then now else st.last_hour_cron_s) :=
  (cron_every_hour_fields st now oracle).1

theorem cron_every_hour_flag_false (st : EarState) (now : Nat)
    (oracle : String → S3PutOutcome) (h : st.s3_put_works = false) :
    (cron_every_hour st now oracle).s3_put_works = false :=
  (cron_every_hour_fields st now oracle).2.2.2 h

/-! The claims. -/

/-- Claim C7: `put_in_s3` never raises to its caller (the embedding is a
total function of the put outcome, mirroring that every exception path in
lines 252-259 is caught); a connection failure, a client-level rejection,
any other exception, a response without `ResponseMetadata`, a response
without `HTTPStatusCode`, and a non-200 status all yield `false`; it yields
`true` exactly when the put returned a well-formed response envelope whose
status code is the successful 200. -/
theorem C7_put_outcome_classification (o : S3PutOutcome) :
    (∀ e, s3_put_worked (S3PutOutcome.clientError e) = false)
    ∧ (∀ e, s3_put_worked (S3PutOutcome.endpointConnectionError e) = false)
    ∧ (∀ e, s3_put_worked (S3PutOutcome.otherException e) = false)
    ∧ s3_put_worked (S3PutOutcome.result ⟨none⟩) = false
    ∧ s3_put_worked (S3PutOutcome.result ⟨some ⟨none⟩⟩) = false
    ∧ (∀ code, code ≠ 200 →
        s3_put_worked (S3PutOutcome.result ⟨some ⟨some code⟩⟩) = false)
    ∧ (s3_put_worked o = true ↔ o = S3PutOutcome.result ⟨some ⟨some 200⟩⟩)
    ∧ (∀ st file_name payload, (put_in_s3 st file_name payload o).1 = s3_put_worked o) := by
  refine ⟨fun e => rfl, fun e => rfl, fun e => rfl, rfl, rfl, ?_, ?_,
    fun st fn p => rfl⟩
  · intro code hc
    simp [s3_put_worked, hc]
  · cases o with
    | clientError e => simp [s3_put_worked]
    | endpointConnectionError e => simp [s3_put_worked]
    | otherException e => simp [s3_put_worked]
    | result r =>
      obtain ⟨md⟩ := r
      cases md with
      | none => simp [s3_put_worked]
      | some m =>
        obtain ⟨c⟩ := m
        cases c with
        | none => simp [s3_put_worked]
        | some code => simp [s3_put_worked]

/-- Witness for C7, at a successful 200 outcome and a 503 outcome. -/
theorem C7_witness :
    s3_put_worked okOutcome = true
    ∧ s3_put_worked (S3PutOutcome.result ⟨some ⟨some 503⟩⟩) = false := by
  have h := C7_put_outcome_classification okOutcome
  exact ⟨h.2.2.2.2.2.2.1.mpr rfl, h.2.2.2.2.2.1 503 (by decide)⟩

/-- Claim C10: after every return of `put_in_s3` the cached health flag
`s3_put_works` equals the boolean the call returned, and the heartbeat
probe `update_s3_put_works`, which discards that boolean, still leaves the
flag equal to the discarded result. -/
theorem C10_flag_equals_last_put_result (st : EarState)
    (file_name payload : String) (o : S3PutOutcome) (now : Nat) :
    (put_in_s3 st file_name payload o).2.s3_put_works
        = (put_in_s3 st file_name payload o).1
    ∧ (update_s3_put_works st now o).s3_put_works = s3_put_worked o :=
  ⟨rfl, rfl⟩

/-- Claim C2 counterexample: with the cached health flag `False` and a fully
decodable message whose put would have succeeded, `on_message` performs no
remote attempt at all (the attempt counter stays 0), against the claim that
the attempt is made regardless of the cached flag. -/
theorem C2_put_skipped_when_flag_false_cex :
    baseState.s3_put_works = false
    ∧ msgOk.type_name.isSome = true
    ∧ msgOk.from_alias.isSome = true
    ∧ msgOk.msg_category.isSome = true
    ∧ s3_put_worked okOutcome = true
    ∧ (on_message baseState msgOk 5 okOutcome).s3_put_attempts = 0 := by
  decide

/-- Claim C2 amended: the remote write is attempted for the current message
iff the cached health flag is `True` when the message arrives; with the
flag `False` the message goes straight to the local store with no remote
attempt. -/
theorem C2_amended_put_attempted_iff_flag (st : EarState) (m : InboundMessage)
    (now_ms : Nat) (o : S3PutOutcome) {tn fa : String} {cat : MessageCategory}
    (htn : m.type_name = some tn) (hfa : m.from_alias = some fa)
    (hcat : m.msg_category = some cat) :
    (on_message st m now_ms o).s3_put_attempts
      = st.s3_put_attempts + (if st.s3_put_works then 1 else 0) := by
  obtain ⟨mtn, mfa, mcat, mbody⟩ := m
  cases htn
  cases hfa
  cases hcat
  by_cases hf : st.s3_put_works <;> by_cases hw : s3_put_worked o <;>
    simp [on_message, hf, hw, put_in_s3, store_locally]

/-- Witness for the amended C2: with the flag `True`, one attempt is made. -/
theorem C2_amended_witness :
    (on_message stFlagTrue msgOk 5 okOutcome).s3_put_attempts
      = stFlagTrue.s3_put_attempts + 1 := by
  have h := C2_amended_put_attempted_iff_flag stFlagTrue msgOk 5 okOutcome
    rfl rfl rfl
  simpa [stFlagTrue, baseState] using h

/-- Claim C9 counterexample: a message whose payload-type decode raises
`SchemaError` is dropped before the hourly counter is incremented, against
the claim that every inbound message is counted regardless of outcome. -/
theorem C9_malformed_not_counted_cex :
    msgNoType.type_name = none
    ∧ baseState.messages_heard_this_hour = 0
    ∧ (on_message baseState msgNoType 5 okOutcome).messages_heard_this_hour = 0 := by
  decide

/-- Claim C9 amended: the hourly counter is incremented exactly once per
inbound message whose payload type and source alias both decode, and not
at all for messages dropped at either of those two steps (a message dropped
at the later category step is still counted). -/
theorem C9_amended_counter_increment (st : EarState) (m : InboundMessage)
    (now_ms : Nat) (o : S3PutOutcome) :
    (on_message st m now_ms o).messages_heard_this_hour
      = st.messages_heard_this_hour
        + (if m.type_name.isSome && m.from_alias.isSome then 1 else 0) := by
  obtain ⟨mtn, mfa, mcat, mbody⟩ := m
  cases mtn <;> cases mfa <;> cases mcat <;>
    by_cases hf : st.s3_put_works <;> by_cases hw : s3_put_worked o <;>
      simp [on_message, hf, hw, put_in_s3, store_locally]

/-- Claim C3 counterexample: with the store-health flag `False`, running the
hour action at `now = 7300` leaves the hour cadence's last-fired timestamp
at 0 and the hour cadence due again immediately, against the claim that the
clock advances regardless of store health. -/
theorem C3_hour_clock_stalls_cex :
    baseState.s3_put_works = false
    ∧ baseState.last_hour_cron_s = 0
    ∧ (cron_every_hour baseState 7300 oracleDown).last_hour_cron_s = 0
    ∧ time_for_hour_cron (cron_every_hour baseState 7300 oracleDown) 7300 = true := by
  decide

/-- Claim C3 amended: `cron_every_hour` advances the hour cadence's
last-fired timestamp to `now` iff the store-health flag was good on entry;
with an unhealthy store the timestamp is untouched and the hour cadence
remains due, so it fires again on every subsequent tick until health
returns. -/
theorem C3_amended_hour_clock_advances_iff_healthy (st : EarState) (now : Nat)
    (oracle : String → S3PutOutcome) :
    (cron_every_hour st now oracle).last_hour_cron_s
      = (if st.s3_put_works then now else st.last_hour_cron_s)
    ∧ (st.s3_put_works = false →
        time_for_hour_cron (cron_every_hour st now oracle) now
          = time_for_hour_cron st now) := by
  refine ⟨cron_every_hour_last_hour st now oracle, fun h => ?_⟩
  simp [time_for_hour_cron, next_hour_cron_s, cron_every_hour_last_hour, h]

/-- Witness for the amended C3 at a concrete unhealthy state. -/
theorem C3_amended_witness :
    (cron_every_hour baseState 7300 oracleDown).last_hour_cron_s = 0 := by
  have h := C3_amended_hour_clock_advances_iff_healthy baseState 7300 oracleDown
  simpa [baseState] using h.1

/-- Claim C5 counterexample: with the cached partition key still at day
19700101, a put issued when the wall clock already reads 90000 s (UTC day
19700102) lands in the old day's partition: `put_in_s3` reads no clock and
uses only the cached key, so the blob does not land in the new day's
partition before the rotation check runs. -/
theorem C5_stale_partition_cex :
    baseState.s3_time_based_subfolder_name = time_based_subfolder_name_from_unix_s 0
    ∧ time_based_subfolder_name_from_unix_s 90000 = "19700102"
    ∧ (put_in_s3 baseState "f.json" "b" okOutcome).2.remote
        = [("hw1__1/eventstore/19700101/f.json", "b")]
    ∧ ("hw1__1/eventstore/19700102/f.json", "b")
        ∉ (put_in_s3 baseState "f.json" "b" okOutcome).2.remote := by
  decide

/-- Claim C5 amended: every write path uses the cached partition key: a
successful `put_in_s3` records the blob under
`{world}/eventstore/{cached key}/{file}`, leaves the cached key unchanged,
and only `possibly_update_s3_folder` (run by the day cadence) recomputes
the key from the clock; hence a put issued after a UTC day boundary lands
in the old day's partition until the rotation check has run. -/
theorem C5_amended_put_uses_cached_partition (st : EarState)
    (file_name payload : String) (o : S3PutOutcome) (now : Nat) :
    (put_in_s3 st file_name payload o).2.s3_time_based_subfolder_name
      = st.s3_time_based_subfolder_name
    ∧ (put_in_s3 st file_name payload o).2.remote
      = st.remote ++ (if s3_put_worked o then
          [(st.world_instance_alias ++ "/eventstore/"
              ++ st.s3_time_based_subfolder_name ++ "/" ++ file_name, payload)]
          else [])
    ∧ (possibly_update_s3_folder st now).2.s3_time_based_subfolder_name
      = time_based_subfolder_name_from_unix_s now := by
  refine ⟨rfl, ?_, ?_⟩
  · by_cases hw : s3_put_worked o <;> simp [put_in_s3, output_folder_root, hw]
  · rw [possibly_update_s3_folder_snd]

/-- Claim C8 counterexample: in Dev mode the purge happens on every local
append, not only the first-ever one: a second append deletes the record the
first append wrote. -/
theorem C8_repurge_cex :
    stDev3.universe_type = UniverseType.Dev
    ∧ stDev3.cache.length = 3
    ∧ (store_locally stDev3 "new1.json" "n1").cache = [("new1.json", "n1")]
    ∧ (store_locally (store_locally stDev3 "new1.json" "n1") "new2.json" "n2").cache
        = [("new2.json", "n2")] := by
  decide

/-- Claim C8 amended: in a Dev-mode deployment every local append (not only
the first) first deletes all existing `.json`/`.txt` records and then
writes the new one; when every cached record carries one of those two
extensions (as all ear-written records do), the cache afterwards holds
exactly the one new record. -/
theorem C8_amended_dev_purge_every_append (st : EarState)
    (file_name payload : String)
    (hdev : st.universe_type = UniverseType.Dev)
    (hext : ∀ r ∈ st.cache,
        str_ends_with r.1 ".json" = true ∨ str_ends_with r.1 ".txt" = true) :
    (store_locally st file_name payload).cache = [(file_name, payload)] := by
  have hflush : flush_dev_records st.cache = [] := by
    rw [flush_dev_records, List.filter_eq_nil_iff]
    intro r hr
    rcases hext r hr with h | h <;> simp [h]
  simp [store_locally, hdev, hflush, cache_write]

/-- Witness for the amended C8 at a Dev state with three stale records. -/
theorem C8_amended_witness :
    (store_locally stDev3 "new1.json" "n1").cache = [("new1.json", "n1")] :=
  C8_amended_dev_purge_every_append stDev3 "new1.json" "n1" rfl (by decide)

/-- Claim C1: for a message whose routing key decodes, `on_message` records
the body in exactly one of the remote store and the local spill cache, and
it lands in the spill cache iff the S3 put did not succeed for it (either
not attempted because the cached flag was `False`, or attempted and
failed). Freshness of the blob name in the cache (guaranteed in practice by
the millisecond timestamp) rules out a pre-existing record of the same
name. -/
theorem C1_store_or_spill_exactly_one (st : EarState) (m : InboundMessage)
    (now_ms : Nat) (o : S3PutOutcome) {tn fa : String} {cat : MessageCategory}
    (htn : m.type_name = some tn) (hfa : m.from_alias = some fa)
    (hcat : m.msg_category = some cat)
    (hfresh : ∀ p, (message_file_name fa tn cat now_ms st.my_fqdn, p) ∉ st.cache) :
    ((message_file_name fa tn cat now_ms st.my_fqdn, m.body)
        ∈ (on_message st m now_ms o).cache
      ↔ (st.s3_put_works && s3_put_worked o) = false)
    ∧ (on_message st m now_ms o).remote.length
      = st.remote.length + (if st.s3_put_works && s3_put_worked o then 1 else 0)
    ∧ ¬ (((message_file_name fa tn cat now_ms st.my_fqdn, m.body)
          ∈ (on_message st m now_ms o).cache)
        ∧ (on_message st m now_ms o).remote.length = st.remote.length + 1) := by
  obtain ⟨mtn, mfa, mcat, mbody⟩ := m
  cases htn
  cases hfa
  cases hcat
  have hf1 := hfresh mbody
  by_cases hf : st.s3_put_works <;> by_cases hw : s3_put_worked o <;>
    simp [on_message, hf, hw, put_in_s3, store_locally, cache_write, hf1]

/-- Witness for C1: with the health flag `False`, the message lands in the
spill cache. -/
theorem C1_witness :
    (message_file_name "atn1" "gt.sh.status.110" MessageCategory.RabbitJsonDirect 5
        baseState.my_fqdn, msgOk.body)
      ∈ (on_message baseState msgOk 5 okOutcome).cache := by
  have h := C1_store_or_spill_exactly_one baseState msgOk 5 okOutcome rfl rfl rfl
    (fun p => by simp [baseState])
  exact h.1.mpr (by decide)

/-- Membership in the spill cache after one drain pass over a listing `l`:
a record survives iff it was there before and either its own put outcome is
a failure or no processed listing entry shares its file name. -/
theorem mem_drain_files_cache (oracle : String → S3PutOutcome)
    (l : List (String × String)) (st : EarState) (r : String × String) :
    r ∈ (drain_files oracle l st).cache
      ↔ r ∈ st.cache
          ∧ (s3_put_worked (oracle r.1) = false ∨ ∀ q ∈ l, q.1 ≠ r.1) := by
  induction l generalizing st with
  | nil => simp [drain_files]
  | cons hd tl ih =>
    obtain ⟨n, p⟩ := hd
    simp only [drain_files]
    by_cases hw : s3_put_worked (oracle n) = true
    · rw [ih]
      by_cases hrn : r.1 = n
      · subst hrn
        simp [put_in_s3, hw, List.mem_filter]
      · simp only [put_in_s3, hw, if_true, List.mem_filter, List.forall_mem_cons]
        constructor
        · rintro ⟨⟨hr, -⟩, hcase⟩
          exact ⟨hr, hcase.imp id (fun h => ⟨fun he => hrn he.symm, h⟩)⟩
        · rintro ⟨hr, hcase⟩
          refine ⟨⟨hr, by simp [bne_iff_ne, hrn]⟩, ?_⟩
          exact hcase.imp id (fun h => h.2)
    · rw [ih]
      by_cases hrn : r.1 = n
      · subst hrn
        simp only [put_in_s3, hw, if_false, List.forall_mem_cons]
        have hw' : s3_put_worked (oracle r.1) = false := by
          rcases h : s3_put_worked (oracle r.1) with - | -
          · rfl
          · exact absurd h hw
        simp [hw']
      · simp only [put_in_s3, hw, if_false, List.forall_mem_cons]
        constructor
        · rintro ⟨hr, hcase⟩
          exact ⟨hr, hcase.imp id (fun h => ⟨fun he => hrn he.symm, h⟩)⟩
        · rintro ⟨hr, hcase⟩
          exact ⟨hr, hcase.imp id (fun h => h.2)⟩

/-- Claim C4: one pass of the drain deletes a cached record iff the remote
write of its bytes reported success; records whose write fails stay, and
after a drain aborted part-way (crash or filesystem fault after the first
`k` records) all not-yet-processed records are still in the cache
unchanged. The file names of a directory listing are distinct, hence the
`Nodup` hypothesis. -/
theorem C4_drain_deletes_iff_success (st : EarState)
    (oracle : String → S3PutOutcome) (r : String × String)
    (hnd : (st.cache.map Prod.fst).Nodup) :
    (r ∈ (try_to_empty_cache st oracle).cache
      ↔ r ∈ st.cache ∧ s3_put_worked (oracle r.1) = false)
    ∧ ∀ k, r ∈ st.cache.drop k →
        r ∈ (try_to_empty_cache_upto st oracle k).cache := by
  constructor
  · rw [try_to_empty_cache, mem_drain_files_cache]
    constructor
    · rintro ⟨hr, hcase⟩
      refine ⟨hr, ?_⟩
      rcases hcase with h | h
      · exact h
      · exact absurd rfl (h r hr)
    · rintro ⟨hr, hw⟩
      exact ⟨hr, Or.inl hw⟩
  · intro k hk
    rw [try_to_empty_cache_upto, mem_drain_files_cache]
    have hr : r ∈ st.cache := by
      have := List.take_append_drop k st.cache
      rw [← this]
      exact List.mem_append_right _ hk
    refine ⟨hr, Or.inr ?_⟩
    intro q hq heq
    have h1 : q.1 ∈ (st.cache.take k).map Prod.fst :=
      List.mem_map_of_mem Prod.fst hq
    have h2 : q.1 ∈ (st.cache.drop k).map Prod.fst := by
      rw [heq]
      exact List.mem_map_of_mem Prod.fst hk
    have hnd' := hnd
    rw [← List.take_append_drop k st.cache, List.map_append,
      List.nodup_append] at hnd'
    exact hnd'.2.2 h1 h2

/-- A two-record spill cache for the drain witness. -/
def stCacheTwo : EarState :=
  { baseState with cache := [("a.json", "pa"), ("b.json", "pb")] }

/-- An S3 that accepts the put of `a.json` and rejects everything else. -/
def oracleAOnly : String → S3PutOutcome := fun n =>
  if n == "a.json" then okOutcome else downOutcome

/-- Witness for C4: the record whose write fails survives the full drain,
and survives a drain aborted after the first record. -/
theorem C4_witness :
    ("b.json", "pb") ∈ (try_to_empty_cache stCacheTwo oracleAOnly).cache
    ∧ ("b.json", "pb") ∈ (try_to_empty_cache_upto stCacheTwo oracleAOnly 1).cache := by
  have h := C4_drain_deletes_iff_success stCacheTwo oracleAOnly ("b.json", "pb")
    (by decide)
  exact ⟨h.1.mpr (by decide), h.2 1 (by decide)⟩

/-! Helper lemmas for the scheduler tick (claim C6). -/

theorem tick_last_min (st : EarState) (now : Nat) (hb : S3PutOutcome)
    (oracle : String → S3PutOutcome) :
    (main_loop_tick st now hb oracle).last_min_cron_s
      = (if time_for_min_cron st now then now else st.last_min_cron_s) := by
  simp only [main_loop_tick]
  split <;> split <;> split <;> simp

theorem tick_last_day (st : EarState) (now : Nat) (hb : S3PutOutcome)
    (oracle : String → S3PutOutcome) :
    (main_loop_tick st now hb oracle).last_day_cron_s
      = (if time_for_day_cron st now then now else st.last_day_cron_s) := by
  simp only [main_loop_tick]
  set A := if time_for_min_cron st now then cron_every_min st now hb else st with hA
  set B := if time_for_hour_cron A now then cron_every_hour A now oracle else A
    with hB
  have hAld : A.last_day_cron_s = st.last_day_cron_s := by
    rw [hA]; split
    · exact cron_every_min_last_day st now hb
    · rfl
  have hBld : B.last_day_cron_s = st.last_day_cron_s := by
    rw [hB]; split
    · rw [cron_every_hour_last_day, hAld]
    · exact hAld
  have htd : time_for_day_cron B now = time_for_day_cron st now := by
    simp [time_for_day_cron, next_day_cron_s, hBld]
  cases hc : time_for_day_cron st now
  · have h2 : time_for_day_cron B now = false := htd.trans hc
    simp [h2, hc, hBld]
  · have h2 : time_for_day_cron B now = true := htd.trans hc
    simp [h2, hc]

theorem tick_no_min_refire (st : EarState) (now : Nat) (hb : S3PutOutcome)
    (oracle : String → S3PutOutcome) :
    time_for_min_cron (main_loop_tick st now hb oracle) now = false := by
  have h := tick_last_min st now hb oracle
  rw [time_for_min_cron, decide_eq_false_iff_not, not_lt, next_min_cron_s, h]
  cases hc : time_for_min_cron st now
  · have hc' : ¬ (now > next_min_cron_s st) := by
      simpa [time_for_min_cron] using hc
    rw [next_min_cron_s] at hc'
    simp only [hc, Bool.false_eq_true, if_false]
    omega
  · simp only [if_true]
    omega

theorem tick_no_day_refire (st : EarState) (now : Nat) (hb : S3PutOutcome)
    (oracle : String → S3PutOutcome) :
    time_for_day_cron (main_loop_tick st now hb oracle) now = false := by
  have h := tick_last_day st now hb oracle
  rw [time_for_day_cron, decide_eq_false_iff_not, not_lt, next_day_cron_s, h]
  cases hc : time_for_day_cron st now
  · have hc' : ¬ (now > next_day_cron_s st) := by
      simpa [time_for_day_cron] using hc
    rw [next_day_cron_s] at hc'
    simp only [hc, Bool.false_eq_true, if_false]
    omega
  · simp only [if_true]
    omega

theorem tick_no_hour_refire_when_healthy (st : EarState) (now : Nat)
    (hb : S3PutOutcome) (oracle : String → S3PutOutcome)
    (hflag : (main_loop_tick st now hb oracle).s3_put_works = true) :
    time_for_hour_cron (main_loop_tick st now hb oracle) now = false := by
  simp only [main_loop_tick] at hflag ⊢
  set A := if time_for_min_cron st now then cron_every_min st now hb else st with hA
  set B := if time_for_hour_cron A now then cron_every_hour A now oracle else A
    with hB
  set C := if time_for_day_cron B now then cron_every_day B now else B with hC
  have hClh : C.last_hour_cron_s = B.last_hour_cron_s := by
    rw [hC]; split
    · exact cron_every_day_last_hour B now
    · rfl
  have hCfl : C.s3_put_works = B.s3_put_works := by
    rw [hC]; split
    · exact cron_every_day_flag B now
    · rfl
  have hAlh : A.last_hour_cron_s = st.last_hour_cron_s := by
    rw [hA]; split
    · exact cron_every_min_last_hour st now hb
    · rfl
  rw [time_for_hour_cron, decide_eq_false_iff_not, not_lt, next_hour_cron_s, hClh]
  cases hc : time_for_hour_cron A now
  · have hBlh : B.last_hour_cron_s = st.last_hour_cron_s := by
      rw [hB]
      simp only [hc, Bool.false_eq_true, if_false]
      exact hAlh
    have hc' : ¬ (now > next_hour_cron_s A) := by
      simpa [time_for_hour_cron] using hc
    rw [next_hour_cron_s, hAlh] at hc'
    rw [hBlh]
    omega
  · have hBeq : B = cron_every_hour A now oracle := by
      rw [hB]
      simp only [hc, if_true]
    cases hfa : A.s3_put_works
    · have hBf : B.s3_put_works = false := by
        rw [hBeq]
        exact cron_every_hour_flag_false A now oracle hfa
      rw [hCfl, hBf] at hflag
      exact absurd hflag (by decide)
    · have hBlh : B.last_hour_cron_s = now := by
        rw [hBeq, cron_every_hour_last_hour]
        simp [hfa]
      rw [hBlh]
      omega

/-- Claim C6 counterexample: the hour cadence's action is NOT fired at most
once per repeated `now`: starting from a zero-messages state with an
unhealthy store, two scheduler ticks at the same `now = 7300` run the hour
action twice (the silence alert fires both times), because the first hour
action did not advance `last_hour_cron_s`. The minute cadence, by contrast,
fires only once (one heartbeat attempt in total). -/
theorem C6_hour_double_fire_cex :
    (main_loop_tick baseState 7300 downOutcome oracleDown).alerts_sent = 1
    ∧ (main_loop_tick (main_loop_tick baseState 7300 downOutcome oracleDown) 7300
        downOutcome oracleDown).alerts_sent = 2
    ∧ time_for_hour_cron (main_loop_tick baseState 7300 downOutcome oracleDown) 7300
        = true
    ∧ (main_loop_tick (main_loop_tick baseState 7300 downOutcome oracleDown) 7300
        downOutcome oracleDown).s3_put_attempts = 1 := by
  decide

/-- Claim C6 amended: the next-fire formula and the strict `now > nextFire`
firing rule hold for all three cadences, and running the tick twice with
the same `now` fires the minute and day actions at most once; the hour
action is fired at most once provided the store-health flag is good after
the first tick (with an unhealthy store the hour cadence remains due and
its action runs again, as the counterexample shows). -/
theorem C6_amended_cadence (st : EarState) (now : Nat) (hb : S3PutOutcome)
    (oracle : String → S3PutOutcome) :
    next_min_cron_s st = st.last_min_cron_s / 60 * 60 + 60
    ∧ next_hour_cron_s st = st.last_hour_cron_s / 3600 * 3600 + 3600
    ∧ next_day_cron_s st = st.last_day_cron_s / 86400 * 86400 + 86400
    ∧ (time_for_min_cron st now = true ↔ now > next_min_cron_s st)
    ∧ (time_for_hour_cron st now = true ↔ now > next_hour_cron_s st)
    ∧ (time_for_day_cron st now = true ↔ now > next_day_cron_s st)
    ∧ time_for_min_cron (main_loop_tick st now hb oracle) now = false
    ∧ time_for_day_cron (main_loop_tick st now hb oracle) now = false
    ∧ ((main_loop_tick st now hb oracle).s3_put_works = true →
        time_for_hour_cron (main_loop_tick st now hb oracle) now = false) := by
  refine ⟨?_, ?_, ?_, ?_, ?_, ?_, tick_no_min_refire st now hb oracle,
    tick_no_day_refire st now hb oracle,
    tick_no_hour_refire_when_healthy st now hb oracle⟩
  · rw [next_min_cron_s]; omega
  · rw [next_hour_cron_s]; omega
  · rw [next_day_cron_s]; omega
  · simp [time_for_min_cron]
  · simp [time_for_hour_cron]
  · simp [time_for_day_cron]

/-- Witness for the amended C6 at a concrete state and time. -/
theorem C6_amended_witness :
    time_for_min_cron (main_loop_tick baseState 7300 downOutcome oracleDown) 7300
      = false := by
  have h := C6_amended_cadence baseState 7300 downOutcome oracleDown
  exact h.2.2.2.2.2.2.1

end GearEar
